import Mathlib

/-!
Verification of the PR review client page (src/app/page.tsx): a shallow
embedding of the submission controller `handleSubmit`, its failure
classification, and the presentation model for the error box, the
statistics strip and the comment location line, together with theorems
about those functions.

Conventions used to translate JavaScript values:
* `Option` models null/undefined (as `none`) versus a present value.
* The number stored by `setRetryAfter` may be NaN (from `parseInt` on a
  non-numeric header), so the `retryAfter` state field is
  `Option (Option Int)`: outer `none` is the null initial state,
  `some none` a stored NaN, `some (some n)` a stored integer.
* JavaScript truthiness: a string is truthy iff nonempty; a number is
  truthy iff nonzero and not NaN; null/undefined are falsy.
* In JSX, `{cond && elem}` renders nothing for `false`, null or
  undefined, but a falsy NUMBER (0 or NaN) is itself rendered as text -
  this leak is modelled by the `Rendered.leakedText` constructor below.
-/

/-- Failure categories of the client: the `errorType` state union of
page.tsx line 37. -/
inductive ErrorType where
  | rate_limit
  | server
  | network
  | validation
  | general
deriving DecidableEq

/-- One review finding (interface `ReviewComment`, page.tsx lines 6-13). -/
structure ReviewComment where
  agent : String
  line : Option Int
  file : Option String
  message : String
  severity : String
  suggestion : Option String
deriving DecidableEq

/-- Aggregate statistics (interface `ReviewStats`, lines 15-19).  The two
`Record<string, number>` objects are association lists with unique keys. -/
structure ReviewStats where
  total_comments : Int
  by_agent : List (String × Int)
  by_severity : List (String × Int)
deriving DecidableEq

/-- Interface `ReviewResult` (lines 21-25). -/
structure ReviewResult where
  comments : List ReviewComment
  stats : ReviewStats
  summary : String
deriving DecidableEq

/-- Interface `ReviewResponse` (lines 27-30). -/
structure ReviewResponse where
  status : String
  review : ReviewResult
deriving DecidableEq

/-- A non-null JavaScript value as `setResult` publishes it (line 106):
`response.json()` resolves to whatever the valid-JSON body denotes, and
the untyped `setResult(data)` stores it unchecked - either a well-formed
`ReviewResponse` payload or a valid-JSON value of any other shape, kept
opaque here. -/
inductive JsValue where
  | review (d : ReviewResponse)
  | other (tag : String)
deriving DecidableEq

/-- The React state of `Home` (lines 33-38), one field per `useState`.
`result = none` is the null state - initial, cleared, or set by
`setResult(null)` when a 2xx body is the JSON literal null. -/
structure ClientState where
  prUrl : String
  loading : Bool
  result : Option JsValue
  error : Option String
  errorType : Option ErrorType
  retryAfter : Option (Option Int)
deriving DecidableEq

/-- A thrown JavaScript value, with exactly the distinctions the catch
block of lines 107-113 makes: a TypeError (what `fetch` rejects with on a
transport failure), the SyntaxError of a failed `response.json()`, a
`new Error(msg)` thrown by the classification switch, or a thrown value
that is not an Error at all. -/
inductive JsError where
  | typeError (msg : String)
  | parseFailure (msg : String)
  | errorObj (msg : String)
  | nonErrorValue
deriving DecidableEq

/-- The observable content of a settled `fetch` response as this client
consumes it.  `errorBody` is the result of `response.json()` on the error
path: `none` when the body is not valid JSON (the parse rejects), and
`some d` when it parses with `d` the `detail` field (absent field as
`none`).  `successBody` is the result of `response.json()` on the success
path: outer `none` when the body is not valid JSON (the parse rejects
with a SyntaxError), `some v` when the body is valid JSON resolving to
the value `v` - inner `none` for the JSON literal null, `some jv` for any
non-null value, well-formed payload or not. -/
structure HttpResponse where
  status : Nat
  statusText : String
  retryAfterHeader : Option String
  errorBody : Option (Option String)
  successBody : Option (Option JsValue)
deriving DecidableEq

/-- Outcome of awaiting the `fetch` call of line 50: either the promise
rejects before any response exists (a transport failure, surfaced by the
browser as a TypeError) or it resolves to a response. -/
inductive FetchOutcome where
  | reject (e : JsError)
  | response (r : HttpResponse)
deriving DecidableEq

/-- JavaScript truthiness of a nullable string. -/
def truthyStr : Option String → Bool
  | some s => if s = "" then false else true
  | none => false

/-- JavaScript truthiness of the `retryAfter` field: null and NaN and 0
are falsy. -/
def truthyNum : Option (Option Int) → Bool
  | some (some n) => if n = 0 then false else true
  | _ => false

/-- JavaScript `d || fb` on a nullable string `d`: the fallback is taken
when `d` is null/undefined or the empty string. -/
def jsOrStr (d : Option String) (fb : String) : String :=
  match d with
  | some s => if s = "" then fb else s
  | none => fb

/-- JavaScript `v > 0` where `v` may be undefined (a comparison with
undefined is NaN-like and yields false). -/
def jsGtZero (v : Option Int) : Bool :=
  match v with
  | some n => if 0 < n then true else false
  | none => false

/-- Property lookup in a `Record<string, number>` object, `none` for an
absent key. -/
def recordGet : List (String × Int) → String → Option Int
  | [], _ => none
  | (k2, v) :: rest, k => if k2 = k then some v else recordGet rest k

/-- Whether the first list starts with the second (character lists). -/
def leadsWith : List Char → List Char → Bool
  | [], _ => true
  | _ :: _, [] => false
  | p :: ps, c :: cs => if p = c then leadsWith ps cs else false

/-- Whether `pat` occurs as a contiguous sublist. -/
def hasSubAux (pat : List Char) : List Char → Bool
  | [] => leadsWith pat []
  | c :: cs => if leadsWith pat (c :: cs) then true else hasSubAux pat cs

/-- JavaScript `s.includes(pat)`. -/
def strContainsSub (s pat : String) : Bool :=
  hasSubAux pat.data s.data

/-- Longest run of leading decimal digits. -/
def takeDigits : List Char → List Char
  | [] => []
  | c :: cs => if c.isDigit then c :: takeDigits cs else []

/-- Value of a digit run, accumulator style. -/
def digitsToNat : List Char → Nat → Nat
  | [], acc => acc
  | c :: cs, acc => digitsToNat cs (acc * 10 + (c.toNat - 48))

/-- JavaScript `parseInt` on a radix-10 numeral: skip leading whitespace,
take an optional sign and then the longest run of leading decimal digits;
`none` models NaN (no digits found).  The hexadecimal auto-detection of
`parseInt` is not modelled; every value considered here is decimal. -/
def jsParseInt (s : String) : Option Int :=
  let cs := s.data.dropWhile (fun c => c == ' ' || c == '\t' || c == '\n' || c == '\r')
  match cs with
  | '-' :: rest =>
    let ds := takeDigits rest
    if ds = [] then none else some (-(Int.ofNat (digitsToNat ds 0)))
  | '+' :: rest =>
    let ds := takeDigits rest
    if ds = [] then none else some (Int.ofNat (digitsToNat ds 0))
  | rest =>
    let ds := takeDigits rest
    if ds = [] then none else some (Int.ofNat (digitsToNat ds 0))

/-- Default message of the 429 branch (page.tsx line 76). -/
def rateLimitDefaultMsg : String :=
  "Rate limit exceeded. Please wait a moment before trying again."

/-- Default message of the 400 branch (line 82). -/
def invalidRequestMsg : String :=
  "Invalid request. Please check the PR URL and try again."

/-- Default message of the 413 branch (line 88). -/
def tooLargeMsg : String :=
  "PR is too large to review. Please try a smaller PR."

/-- Default message of the 500/502/503/504 branch (line 97). -/
def serverErrorMsg : String :=
  "Server error. Please try again in a few moments."

/-- Default message of the default branch (line 101),
`Error {status}: {statusText}`. -/
def generalErrorMsg (status : Nat) (statusText : String) : String :=
  "Error " ++ toString status ++ ": " ++ statusText

/-- Fixed connectivity message of the network branch (line 110). -/
def networkErrorMsg : String :=
  "Cannot connect to the API server. Please check if the server is running."

/-- Message shown for a thrown non-Error value (line 112). -/
def unexpectedErrorMsg : String :=
  "An unexpected error occurred"

/-- WHATWG `Response.ok`: status in the inclusive range 200-299. -/
def okStatus (status : Nat) : Bool :=
  if 200 ≤ status ∧ status ≤ 299 then true else false

/-- Lines 59-64: the detail string the error path works with - the
parsed body detail, or the status text when the body was not valid JSON
(the inner try/catch substitutes `{ detail: response.statusText }`). -/
def bodyDetail (r : HttpResponse) : Option String :=
  match r.errorBody with
  | some d => d
  | none => some r.statusText

/-- Lines 58-102, the non-ok branch: parse the error body, falling back
to `{ detail: response.statusText }` when JSON parsing fails (lines
60-64), then the switch on `response.status`: set `errorType` (and, on
429, `retryAfter` from the Retry-After header when that header is
truthy), and throw a `new Error(...)` whose message is the body detail
when truthy and the status-specific default otherwise.  The returned pair
is the updated state together with the thrown error. -/
def classifyAndThrow (r : HttpResponse) (s : ClientState) : ClientState × JsError :=
  let detail : Option String := bodyDetail r
  if r.status = 429 then
    let s1 := { s with errorType := some ErrorType.rate_limit }
    let s2 :=
      match r.retryAfterHeader with
      | some h => if h = "" then s1 else { s1 with retryAfter := some (jsParseInt h) }
      | none => s1
    (s2, JsError.errorObj (jsOrStr detail rateLimitDefaultMsg))
  else if r.status = 400 then
    ({ s with errorType := some ErrorType.validation },
      JsError.errorObj (jsOrStr detail invalidRequestMsg))
  else if r.status = 413 then
    ({ s with errorType := some ErrorType.validation },
      JsError.errorObj (jsOrStr detail tooLargeMsg))
  else if r.status = 500 ∨ r.status = 502 ∨ r.status = 503 ∨ r.status = 504 then
    ({ s with errorType := some ErrorType.server },
      JsError.errorObj (jsOrStr detail serverErrorMsg))
  else
    ({ s with errorType := some ErrorType.general },
      JsError.errorObj (jsOrStr detail (generalErrorMsg r.status r.statusText)))

/-- Failure-category table of the specification (section 4.2), stated
from the words of the spec for comparison with the code: 429 to
rate_limit, 400 and 413 to validation, 500/502/503/504 to server, and
any other non-2xx status to general. -/
def specCategory (status : Nat) : ErrorType :=
  if status = 429 then ErrorType.rate_limit
  else if status = 400 ∨ status = 413 then ErrorType.validation
  else if status = 500 ∨ status = 502 ∨ status = 503 ∨ status = 504 then ErrorType.server
  else ErrorType.general

/-- The status-specific default message the switch of lines 67-102 falls
back to when the body detail is falsy. -/
def defaultDetailMsg (r : HttpResponse) : String :=
  if r.status = 429 then rateLimitDefaultMsg
  else if r.status = 400 then invalidRequestMsg
  else if r.status = 413 then tooLargeMsg
  else if r.status = 500 ∨ r.status = 502 ∨ r.status = 503 ∨ r.status = 504 then serverErrorMsg
  else generalErrorMsg r.status r.statusText

/-- The `retryAfter` state the error path produces: set only on the 429
branch, and there only when the header is present and nonempty, in which
case it holds the `parseInt` of the header (inner `none` being NaN). -/
def retryAfterOf (r : HttpResponse) : Option (Option Int) :=
  if r.status = 429 then
    match r.retryAfterHeader with
    | some h => if h = "" then none else some (jsParseInt h)
    | none => none
  else none

/-- The try block of lines 49-106: a rejected fetch propagates its error;
a non-ok response runs the classification switch and propagates the
thrown Error; an ok response awaits `response.json()` - a body that is
not valid JSON makes the parse reject with a SyntaxError, while any
valid-JSON body resolves and its value (possibly null) is passed to
`setResult` unchecked. -/
def tryBlock (o : FetchOutcome) (s : ClientState) : ClientState × Except JsError Unit :=
  match o with
  | FetchOutcome.reject e => (s, Except.error e)
  | FetchOutcome.response r =>
    if okStatus r.status then
      match r.successBody with
      | some data => ({ s with result := data }, Except.ok ())
      | none => (s, Except.error (JsError.parseFailure "Unexpected end of JSON input"))
    else
      let step := classifyAndThrow r s
      (step.1, Except.error step.2)

/-- The catch block of lines 107-113: a TypeError whose message contains
the substring fetch is treated as a connectivity failure; any other Error
surfaces its own message; a non-Error value surfaces the fixed
unexpected-error message. -/
def catchBlock (e : JsError) (s : ClientState) : ClientState :=
  match e with
  | JsError.typeError msg =>
    if strContainsSub msg "fetch" then
      { s with errorType := some ErrorType.network, error := some networkErrorMsg }
    else
      { s with error := some msg }
  | JsError.parseFailure msg => { s with error := some msg }
  | JsError.errorObj msg => { s with error := some msg }
  | JsError.nonErrorValue => { s with error := some unexpectedErrorMsg }

/-- Lines 43-47: the state in force when the request is dispatched - the
in-flight flag is raised and the four result/error fields are cleared. -/
def dispatchState (s : ClientState) : ClientState :=
  { s with loading := true, error := none, errorType := none,
           retryAfter := none, result := none }

/-- Try/catch/finally of lines 49-116 run from a given starting state:
the try block runs, a thrown error is handled by the catch block, and the
finally block lowers the in-flight flag on every path. -/
def settleCycle (s0 : ClientState) (o : FetchOutcome) : ClientState :=
  let step := tryBlock o s0
  let s2 :=
    match step.2 with
    | Except.ok _ => step.1
    | Except.error e => catchBlock e step.1
  { s2 with loading := false }

/-- The whole of `handleSubmit` (lines 41-117) as a state transformer:
from the previous state and the outcome of the fetch, the state after the
cycle completes. -/
def handleSubmit (prev : ClientState) (o : FetchOutcome) : ClientState :=
  settleCycle (dispatchState prev) o

/-- What one JSX `{cond && elem}` slot puts on the page: nothing (for
false/null/undefined), a leaked falsy number rendered as bare text, or
the element with its text. -/
inductive Rendered where
  | nothing
  | leakedText (s : String)
  | para (s : String)
deriving DecidableEq

/-- The wait hint paragraph of lines 185-187. -/
def specificWaitHint (n : Int) : String :=
  "⏱️ Please wait approximately " ++ toString n ++ " seconds before retrying."

/-- The generic tip paragraph of lines 190-192. -/
def genericWaitTip : String :=
  "💡 Tip: Wait a few minutes before submitting another review request."

/-- Line 184: `{errorType === ratelimit && retryAfter && <p>...}` inside
the error box (`{error && ...}`, line 152).  A null `retryAfter` renders
nothing; a stored 0 or NaN is a falsy number and leaks as bare text; a
truthy value renders the wait-hint paragraph. -/
def waitHintSlot (s : ClientState) : Rendered :=
  if truthyStr s.error then
    if s.errorType = some ErrorType.rate_limit then
      match s.retryAfter with
      | none => Rendered.nothing
      | some (some n) =>
        if n = 0 then Rendered.leakedText "0"
        else Rendered.para (specificWaitHint n)
      | some none => Rendered.leakedText "NaN"
    else Rendered.nothing
  else Rendered.nothing

/-- Line 189: `{errorType === ratelimit && !retryAfter && <p>...}` inside
the error box: the generic tip shows exactly when `retryAfter` is falsy. -/
def genericTipSlot (s : ClientState) : Rendered :=
  if truthyStr s.error then
    if s.errorType = some ErrorType.rate_limit ∧ truthyNum s.retryAfter = false then
      Rendered.para genericWaitTip
    else Rendered.nothing
  else Rendered.nothing

/-- Lines 232-249, one severity tile: shown with its count exactly when
`by_severity[key] > 0` under JavaScript semantics (an absent key gives
undefined, and `undefined > 0` is false). -/
def severityTile (bs : List (String × Int)) (key : String) : Option Int :=
  if jsGtZero (recordGet bs key) then recordGet bs key else none

/-- The statistics strip of lines 226-251: the Total Issues tile is
unconditional; the three severity tiles are guarded. -/
structure StatsStrip where
  totalTile : Int
  highTile : Option Int
  mediumTile : Option Int
  lowTile : Option Int
deriving DecidableEq

/-- Render the statistics strip from a `ReviewStats`. -/
def renderStats (st : ReviewStats) : StatsStrip :=
  { totalTile := st.total_comments
  , highTile := severityTile st.by_severity "high"
  , mediumTile := severityTile st.by_severity "medium"
  , lowTile := severityTile st.by_severity "low" }

/-- Line 286, `{comment.line && ` : Line N`}`: null renders nothing, the
falsy number 0 leaks as the bare text 0, a nonzero line renders the
suffix. -/
def lineSuffix : Option Int → String
  | none => ""
  | some n => if n = 0 then "0" else " : Line " ++ toString n

/-- Lines 282-288, the location paragraph: rendered only under a truthy
`comment.file` (non-null and nonempty), and then it is the file name
followed by the line suffix. -/
def locationLine (c : ReviewComment) : Option String :=
  match c.file with
  | none => none
  | some f => if f = "" then none else some (f ++ lineSuffix c.line)

/-- The initial state of `Home` (the six `useState` initial values,
lines 33-38). -/
def initialState : ClientState :=
  { prUrl := "", loading := false, result := none, error := none,
    errorType := none, retryAfter := none }

/-- A sample successful payload. -/
def sampleResponse : ReviewResponse :=
  { status := "success"
  , review :=
    { comments := []
    , stats := { total_comments := 0, by_agent := [], by_severity := [] }
    , summary := "" } }

/-- A 200 response with a well-formed `ReviewResponse` body. -/
def respOk : HttpResponse :=
  { status := 200, statusText := "OK", retryAfterHeader := none,
    errorBody := some none,
    successBody := some (some (JsValue.review sampleResponse)) }

/-- A 200 response whose body is the valid JSON literal null: the parse
resolves to null and line 106 runs `setResult(null)`. -/
def respOkNull : HttpResponse :=
  { status := 200, statusText := "OK", retryAfterHeader := none,
    errorBody := some none, successBody := some none }

/-- A 404 response with a JSON error body. -/
def resp404 : HttpResponse :=
  { status := 404, statusText := "Not Found", retryAfterHeader := none,
    errorBody := some (some "missing"), successBody := none }

/-- A 429 response carrying Retry-After 30. -/
def resp429hdr30 : HttpResponse :=
  { status := 429, statusText := "Too Many Requests",
    retryAfterHeader := some "30", errorBody := some none,
    successBody := none }

/-- A 429 response carrying Retry-After 0. -/
def resp429hdr0 : HttpResponse :=
  { status := 429, statusText := "Too Many Requests",
    retryAfterHeader := some "0", errorBody := some none,
    successBody := none }

/-- A 500 response with a malformed body and an empty status text (as an
HTTP/2 response has, reason phrases being absent there). -/
def resp500empty : HttpResponse :=
  { status := 500, statusText := "", retryAfterHeader := none,
    errorBody := none, successBody := none }

/-- A 500 response with a malformed body and a nonempty status text. -/
def resp500mal : HttpResponse :=
  { status := 500, statusText := "Internal Server Error",
    retryAfterHeader := none, errorBody := none, successBody := none }

/-- Statistics with every severity bucket absent. -/
def statsEmpty : ReviewStats :=
  { total_comments := 3, by_agent := [], by_severity := [] }

/-- A comment with both file and line present. -/
def commentFileLine : ReviewComment :=
  { agent := "logic", line := some 12, file := some "a.py",
    message := "m", severity := "high", suggestion := none }

/-- A comment with file present and line 0. -/
def commentLineZero : ReviewComment :=
  { agent := "logic", line := some 0, file := some "a.py",
    message := "m", severity := "high", suggestion := none }

/-- The fallback chain `detail || default` never yields the empty string
when the default is nonempty. -/
theorem jsOrStr_ne_empty (d : Option String) (fb : String) (hfb : fb ≠ "") :
    jsOrStr d fb ≠ "" := by
  cases d with
  | none => simpa [jsOrStr] using hfb
  | some s =>
    by_cases hs : s = ""
    · simpa [jsOrStr, hs] using hfb
    · simp [jsOrStr, hs]

/-- A string on which `parseInt` finds a number is nonempty. -/
theorem jsParseInt_some_ne_empty {hdr : String} {n : Int}
    (hp : jsParseInt hdr = some n) : hdr ≠ "" := by
  intro he
  rw [he] at hp
  rw [(by decide : jsParseInt "" = none)] at hp
  exact Option.noConfusion hp

/-- Characterization of a completed cycle on a non-ok response: the
result is cleared, the message is the body detail (or the status-specific
default), the category follows the section 4.2 table, and `retryAfter` is
as the 429 branch computes it. -/
theorem handleSubmit_not_ok (prev : ClientState) (r : HttpResponse)
    (hok : okStatus r.status = false) :
    handleSubmit prev (FetchOutcome.response r) =
      { prUrl := prev.prUrl, loading := false, result := none,
        error := some (jsOrStr (bodyDetail r) (defaultDetailMsg r)),
        errorType := some (specCategory r.status),
        retryAfter := retryAfterOf r } := by
  simp only [handleSubmit, settleCycle, tryBlock, dispatchState, hok,
             Bool.false_eq_true, if_false, classifyAndThrow]
  by_cases h1 : r.status = 429
  · cases hh : r.retryAfterHeader with
    | none =>
      simp [catchBlock, h1, hh, specCategory, defaultDetailMsg, retryAfterOf]
    | some h =>
      by_cases hemp : h = "" <;>
        simp [catchBlock, h1, hh, hemp, specCategory, defaultDetailMsg, retryAfterOf]
  · by_cases h2 : r.status = 400
    · simp [catchBlock, h1, h2, specCategory, defaultDetailMsg, retryAfterOf]
    · by_cases h3 : r.status = 413
      · simp [catchBlock, h1, h2, h3, specCategory, defaultDetailMsg, retryAfterOf]
      · by_cases h4 : r.status = 500 ∨ r.status = 502 ∨ r.status = 503 ∨ r.status = 504
        · simp [catchBlock, h1, h2, h3, h4, specCategory, defaultDetailMsg, retryAfterOf]
        · simp [catchBlock, h1, h2, h3, h4, specCategory, defaultDetailMsg, retryAfterOf]

/-- Characterization of a completed cycle on an ok response whose body
is valid JSON: the parsed value (possibly null) is published unchecked
and no error field is set. -/
theorem handleSubmit_ok_success (prev : ClientState) (r : HttpResponse)
    (hok : okStatus r.status = true) (v : Option JsValue)
    (hb : r.successBody = some v) :
    handleSubmit prev (FetchOutcome.response r) =
      { prUrl := prev.prUrl, loading := false, result := v,
        error := none, errorType := none, retryAfter := none } := by
  simp [handleSubmit, settleCycle, tryBlock, dispatchState, hok, hb]

/-- Claim C1: for every completed HTTP response with a non-2xx status,
the failure category assigned by `handleSubmit` is the deterministic
function of the status given in the section 4.2 table (429 to
rate_limit, 400 and 413 to validation, 500/502/503/504 to server, every
other non-2xx status to general), independently of the response body -
the quantification ranges over every body and header. -/
theorem status_category_table (prev : ClientState) (r : HttpResponse)
    (hok : okStatus r.status = false) :
    (handleSubmit prev (FetchOutcome.response r)).errorType
      = some (specCategory r.status) := by
  rw [handleSubmit_not_ok prev r hok]

/-- Witness for C1 at a concrete 404 response. -/
theorem status_category_table_w :
    okStatus resp404.status = false
    ∧ (handleSubmit initialState (FetchOutcome.response resp404)).errorType
        = some (specCategory resp404.status) :=
  ⟨by decide, status_category_table initialState resp404 (by decide)⟩

/-- Claim C2, counterexample: a transport failure whose TypeError message
is "Load failed" (the message Safari uses) is NOT classified as network
and does not show the fixed connectivity message - the catch block keys
on the substring fetch in the message, not on the absence of a status. -/
theorem transport_failure_misclassified_cx :
    (handleSubmit initialState
        (FetchOutcome.reject (JsError.typeError "Load failed"))).errorType = none
    ∧ (handleSubmit initialState
        (FetchOutcome.reject (JsError.typeError "Load failed"))).error = some "Load failed"
    ∧ "Load failed" ≠ networkErrorMsg := by decide

/-- Claim C2 as amended: a fetch rejection with a TypeError whose message
contains the substring fetch is classified as category network and
displays the fixed connectivity message; a transport TypeError whose
message lacks that substring instead leaves the category unset and
surfaces the raw message. -/
theorem transport_failure_classification (prev : ClientState) (msg : String)
    (h : strContainsSub msg "fetch" = true) :
    (handleSubmit prev (FetchOutcome.reject (JsError.typeError msg))).errorType
        = some ErrorType.network
    ∧ (handleSubmit prev (FetchOutcome.reject (JsError.typeError msg))).error
        = some networkErrorMsg := by
  simp [handleSubmit, settleCycle, tryBlock, catchBlock, dispatchState, h]

/-- Witness for the amended C2 at the Chrome transport-failure message. -/
theorem transport_failure_classification_w :
    strContainsSub "Failed to fetch" "fetch" = true
    ∧ (handleSubmit initialState
        (FetchOutcome.reject (JsError.typeError "Failed to fetch"))).errorType
        = some ErrorType.network
    ∧ (handleSubmit initialState
        (FetchOutcome.reject (JsError.typeError "Failed to fetch"))).error
        = some networkErrorMsg :=
  ⟨by decide,
   (transport_failure_classification initialState "Failed to fetch" (by decide)).1,
   (transport_failure_classification initialState "Failed to fetch" (by decide)).2⟩

/-- Claim C3, counterexample: a 500 response with a malformed body and an
EMPTY status text (as HTTP/2 responses have) yields the canned server
message, not a message derived from the status text - the fallback chain
`detail || default` treats the empty status text as falsy. -/
theorem malformed_body_empty_statustext_cx :
    resp500empty.errorBody = none ∧ resp500empty.statusText = ""
    ∧ (handleSubmit initialState (FetchOutcome.response resp500empty)).errorType
        = some ErrorType.server
    ∧ (handleSubmit initialState (FetchOutcome.response resp500empty)).error
        = some serverErrorMsg
    ∧ (handleSubmit initialState (FetchOutcome.response resp500empty)).error
        ≠ some resp500empty.statusText := by decide

/-- Claim C3 as amended: for every non-2xx response whose body is not
valid JSON, parsing never propagates an exception - the cycle completes
in a classified state: the category still follows the status table, the
message is exactly the status text whenever the status text is nonempty
(and the status-specific canned default when it is empty), and no result
is published. -/
theorem malformed_body_fallback (prev : ClientState) (r : HttpResponse)
    (hok : okStatus r.status = false) (hbody : r.errorBody = none) :
    (handleSubmit prev (FetchOutcome.response r)).errorType
        = some (specCategory r.status)
    ∧ (handleSubmit prev (FetchOutcome.response r)).error
        = some (jsOrStr (some r.statusText) (defaultDetailMsg r))
    ∧ (r.statusText ≠ "" →
        (handleSubmit prev (FetchOutcome.response r)).error = some r.statusText)
    ∧ (handleSubmit prev (FetchOutcome.response r)).result = none := by
  rw [handleSubmit_not_ok prev r hok]
  refine ⟨rfl, ?_, ?_, rfl⟩
  · simp [bodyDetail, hbody]
  · intro ht
    simp [bodyDetail, hbody, jsOrStr, ht]

/-- Witness for the amended C3: a 500 with a malformed body and the usual
nonempty status text surfaces that status text as the message. -/
theorem malformed_body_fallback_w :
    resp500mal.statusText ≠ ""
    ∧ (handleSubmit initialState (FetchOutcome.response resp500mal)).error
        = some resp500mal.statusText :=
  ⟨by decide,
   (malformed_body_fallback initialState resp500mal (by decide) rfl).2.2.1 (by decide)⟩

/-- Claim C4, counterexample: a 429 response carrying the header
Retry-After: 0 parses to the integer 0, yet the displayed hint is the
generic wait tip, not a hint mentioning 0 seconds - the stored 0 is a
falsy number, so the wait-hint slot only leaks a bare 0 as text and the
generic-tip condition `!retryAfter` holds. -/
theorem retry_after_zero_cx :
    resp429hdr0.retryAfterHeader = some "0" ∧ jsParseInt "0" = some 0
    ∧ waitHintSlot (handleSubmit initialState (FetchOutcome.response resp429hdr0))
        = Rendered.leakedText "0"
    ∧ genericTipSlot (handleSubmit initialState (FetchOutcome.response resp429hdr0))
        = Rendered.para genericWaitTip
    ∧ Rendered.leakedText "0" ≠ Rendered.para (specificWaitHint 0) := by decide

/-- Claim C4 as amended: for every 429 response whose Retry-After header
parses (per JavaScript parseInt) to a NONZERO integer n, the displayed
wait hint mentions n seconds and the generic tip is suppressed; for a 429
without the header the generic tip is shown; and a header parsing to 0
also yields the generic tip rather than a hint naming the parsed value. -/
theorem retry_after_hint (prev : ClientState) (r : HttpResponse)
    (h429 : r.status = 429) :
    (∀ hdr n, r.retryAfterHeader = some hdr → jsParseInt hdr = some n → n ≠ 0 →
        waitHintSlot (handleSubmit prev (FetchOutcome.response r))
            = Rendered.para (specificWaitHint n)
        ∧ genericTipSlot (handleSubmit prev (FetchOutcome.response r))
            = Rendered.nothing)
    ∧ (r.retryAfterHeader = none →
        waitHintSlot (handleSubmit prev (FetchOutcome.response r)) = Rendered.nothing
        ∧ genericTipSlot (handleSubmit prev (FetchOutcome.response r))
            = Rendered.para genericWaitTip)
    ∧ (∀ hdr, r.retryAfterHeader = some hdr → jsParseInt hdr = some 0 →
        waitHintSlot (handleSubmit prev (FetchOutcome.response r))
            = Rendered.leakedText "0"
        ∧ genericTipSlot (handleSubmit prev (FetchOutcome.response r))
            = Rendered.para genericWaitTip) := by
  have hok : okStatus r.status = false := by rw [h429]; decide
  have hdm : defaultDetailMsg r = rateLimitDefaultMsg := by
    simp [defaultDetailMsg, h429]
  have hmsg : jsOrStr (bodyDetail r) (defaultDetailMsg r) ≠ "" := by
    rw [hdm]
    exact jsOrStr_ne_empty _ _ (by decide)
  have hcat : specCategory 429 = ErrorType.rate_limit := by decide
  rw [handleSubmit_not_ok prev r hok]
  refine ⟨?_, ?_, ?_⟩
  · intro hdr n hhdr hp hn
    have hne : hdr ≠ "" := jsParseInt_some_ne_empty hp
    constructor
    · simp [waitHintSlot, truthyStr, hmsg, hcat, retryAfterOf, h429, hhdr, hne, hp, hn]
    · simp [genericTipSlot, truthyStr, hmsg, hcat, truthyNum, retryAfterOf, h429,
            hhdr, hne, hp, hn]
  · intro hhdr
    constructor
    · simp [waitHintSlot, truthyStr, hmsg, hcat, retryAfterOf, h429, hhdr]
    · simp [genericTipSlot, truthyStr, hmsg, hcat, truthyNum, retryAfterOf, h429, hhdr]
  · intro hdr hhdr hp
    have hne : hdr ≠ "" := jsParseInt_some_ne_empty hp
    constructor
    · simp [waitHintSlot, truthyStr, hmsg, hcat, retryAfterOf, h429, hhdr, hne, hp]
    · simp [genericTipSlot, truthyStr, hmsg, hcat, truthyNum, retryAfterOf, h429,
            hhdr, hne, hp]

/-- Witness for the amended C4: Retry-After 30 yields the wait hint
mentioning 30 seconds and suppresses the generic tip. -/
theorem retry_after_hint_w :
    jsParseInt "30" = some 30
    ∧ waitHintSlot (handleSubmit initialState (FetchOutcome.response resp429hdr30))
        = Rendered.para (specificWaitHint 30)
    ∧ genericTipSlot (handleSubmit initialState (FetchOutcome.response resp429hdr30))
        = Rendered.nothing :=
  ⟨by decide,
   ((retry_after_hint initialState resp429hdr30 rfl).1 "30" 30 rfl (by decide) (by decide)).1,
   ((retry_after_hint initialState resp429hdr30 rfl).1 "30" 30 rfl (by decide) (by decide)).2⟩

/-- On every fetch rejection the cycle completes with no result and a
non-null error message. -/
theorem handleSubmit_reject_sets_error (prev : ClientState) (e : JsError) :
    (handleSubmit prev (FetchOutcome.reject e)).result = none
    ∧ (handleSubmit prev (FetchOutcome.reject e)).error.isSome = true := by
  cases e with
  | typeError msg =>
    by_cases h : strContainsSub msg "fetch" = true
    · simp [handleSubmit, settleCycle, tryBlock, catchBlock, dispatchState, h]
    · simp [handleSubmit, settleCycle, tryBlock, catchBlock, dispatchState, h]
  | parseFailure msg =>
    simp [handleSubmit, settleCycle, tryBlock, catchBlock, dispatchState]
  | errorObj msg =>
    simp [handleSubmit, settleCycle, tryBlock, catchBlock, dispatchState]
  | nonErrorValue =>
    simp [handleSubmit, settleCycle, tryBlock, catchBlock, dispatchState]

/-- Claim C5, counterexample: a 200 response whose body is the valid
JSON literal null completes the cycle with BOTH `result` and `error`
null - `response.json()` resolves to null and line 106 runs
`setResult(null)` - so the exactly-one invariant fails. -/
theorem result_error_both_null_cx :
    okStatus respOkNull.status = true
    ∧ respOkNull.successBody = some none
    ∧ (handleSubmit initialState (FetchOutcome.response respOkNull)).result = none
    ∧ (handleSubmit initialState (FetchOutcome.response respOkNull)).error = none := by
  decide

/-- Claim C5 as amended: after every completed cycle AT MOST ONE of
`result` and `error` is non-null; every failure path - fetch rejection,
non-2xx status, or a 2xx body that is not valid JSON - sets `error` and
leaves `result` null; and a 2xx response whose body is valid JSON
publishes the parsed value as `result` unchecked with `error` null, so
both fields are null exactly when such a body is the JSON literal null. -/
theorem submit_result_error_exclusion (prev : ClientState) (o : FetchOutcome) :
    ((handleSubmit prev o).result = none ∨ (handleSubmit prev o).error = none)
    ∧ (∀ e, o = FetchOutcome.reject e →
        (handleSubmit prev o).result = none
        ∧ (handleSubmit prev o).error.isSome = true)
    ∧ (∀ r, o = FetchOutcome.response r → okStatus r.status = false →
        (handleSubmit prev o).result = none
        ∧ (handleSubmit prev o).error.isSome = true)
    ∧ (∀ r, o = FetchOutcome.response r → okStatus r.status = true →
        r.successBody = none →
        (handleSubmit prev o).result = none
        ∧ (handleSubmit prev o).error.isSome = true)
    ∧ (∀ r v, o = FetchOutcome.response r → okStatus r.status = true →
        r.successBody = some v →
        (handleSubmit prev o).result = v
        ∧ (handleSubmit prev o).error = none) := by
  refine ⟨?_, ?_, ?_, ?_, ?_⟩
  · cases o with
    | reject e =>
      left
      exact (handleSubmit_reject_sets_error prev e).1
    | response r =>
      by_cases hok : okStatus r.status = true
      · cases hb : r.successBody with
        | some v =>
          right
          rw [handleSubmit_ok_success prev r hok v hb]
        | none =>
          left
          simp [handleSubmit, settleCycle, tryBlock, catchBlock, dispatchState, hok, hb]
      · left
        rw [handleSubmit_not_ok prev r (by simpa using hok)]
  · intro e ho
    subst ho
    exact handleSubmit_reject_sets_error prev e
  · intro r ho hok
    subst ho
    rw [handleSubmit_not_ok prev r hok]
    exact ⟨rfl, rfl⟩
  · intro r ho hok hb
    subst ho
    simp [handleSubmit, settleCycle, tryBlock, catchBlock, dispatchState, hok, hb]
  · intro r v ho hok hb
    subst ho
    rw [handleSubmit_ok_success prev r hok v hb]
    exact ⟨rfl, rfl⟩

/-- Witness for the amended C5: a 200 response with a well-formed
`ReviewResponse` body publishes it in `result` and leaves `error` null. -/
theorem submit_result_error_exclusion_w :
    (handleSubmit initialState (FetchOutcome.response respOk)).result
        = some (JsValue.review sampleResponse)
    ∧ (handleSubmit initialState (FetchOutcome.response respOk)).error = none :=
  (submit_result_error_exclusion initialState (FetchOutcome.response respOk)).2.2.2.2
    respOk (some (JsValue.review sampleResponse)) rfl (by decide) rfl

/-- Claim C6: on every invocation of `handleSubmit` the prior result,
error, error category and retry-after state are all cleared (and the
in-flight flag raised) in the state from which the request is dispatched,
and the whole cycle runs from exactly that cleared state. -/
theorem submit_clears_before_dispatch (prev : ClientState) :
    (dispatchState prev).result = none
    ∧ (dispatchState prev).error = none
    ∧ (dispatchState prev).errorType = none
    ∧ (dispatchState prev).retryAfter = none
    ∧ (dispatchState prev).loading = true
    ∧ ∀ o, handleSubmit prev o = settleCycle (dispatchState prev) o :=
  ⟨rfl, rfl, rfl, rfl, rfl, fun _ => rfl⟩

/-- Claim C7: the in-flight flag is raised in the dispatch state and is
lowered in the final state of every completed cycle, whatever the fetch
outcome (success, classified HTTP failure, transport failure, or any
other thrown value). -/
theorem loading_flag_lifecycle (prev : ClientState) (o : FetchOutcome) :
    (dispatchState prev).loading = true
    ∧ (handleSubmit prev o).loading = false :=
  ⟨rfl, rfl⟩

/-- Claim C8: the statistics strip always carries the Total Issues tile
with the total count; a severity tile is shown, carrying its count,
exactly when that bucket is present with a strictly positive count; an
absent bucket behaves like zero (the tile is simply omitted, no crash -
`severityTile` is total); and an empty `by_severity` record renders only
the Total Issues tile. -/
theorem stats_strip_rendering (st : ReviewStats) :
    (renderStats st).totalTile = st.total_comments
    ∧ (∀ k v, severityTile st.by_severity k = some v ↔
        (recordGet st.by_severity k = some v ∧ 0 < v))
    ∧ (∀ k, recordGet st.by_severity k = none → severityTile st.by_severity k = none)
    ∧ (st.by_severity = [] →
        (renderStats st).highTile = none
        ∧ (renderStats st).mediumTile = none
        ∧ (renderStats st).lowTile = none) := by
  refine ⟨rfl, ?_, ?_, ?_⟩
  · intro k v
    cases hrec : recordGet st.by_severity k with
    | none => simp [severityTile, jsGtZero, hrec]
    | some w =>
      by_cases hw : 0 < w
      · simp only [severityTile, jsGtZero, hrec, hw, if_true]
        constructor
        · intro h
          rw [Option.some.injEq] at h
          subst h
          exact ⟨rfl, hw⟩
        · intro h
          exact h.1
      · simp [severityTile, jsGtZero, hrec, hw]
        intro h
        subst h
        omega
  · intro k hrec
    simp [severityTile, jsGtZero, hrec]
  · intro h
    simp [renderStats, severityTile, jsGtZero, recordGet, h]

/-- Witness for C8: with every severity bucket absent all three severity
tiles are omitted. -/
theorem stats_strip_rendering_w :
    (renderStats statsEmpty).highTile = none
    ∧ (renderStats statsEmpty).mediumTile = none
    ∧ (renderStats statsEmpty).lowTile = none :=
  (stats_strip_rendering statsEmpty).2.2.2 rfl

/-- Claim C9, counterexample: a comment with file "a.py" and line 0 (both
present) renders the location as the bare concatenation "a.py0" - the
falsy line number leaks as text - and not "a.py : Line 0" as the claim
predicts for a present line. -/
theorem location_line_zero_cx :
    commentLineZero.file = some "a.py" ∧ commentLineZero.line = some 0
    ∧ locationLine commentLineZero = some "a.py0"
    ∧ locationLine commentLineZero ≠ some "a.py : Line 0" := by decide

/-- Claim C9 as amended: for a nonempty file name, the location renders
as the file name alone when line is null, as the file name with the
suffix " : Line N" when line is a NONZERO number, and as the file name
with a stray leaked "0" when line is 0; a null file renders no location
line at all. -/
theorem location_line_rendering (c : ReviewComment) :
    (c.file = none → locationLine c = none)
    ∧ (∀ f, c.file = some f → f ≠ "" →
        (c.line = none → locationLine c = some f)
        ∧ (∀ n, c.line = some n → n ≠ 0 →
            locationLine c = some (f ++ (" : Line " ++ toString n)))
        ∧ (c.line = some 0 → locationLine c = some (f ++ "0"))) := by
  constructor
  · intro h
    simp [locationLine, h]
  · intro f hf hne
    refine ⟨?_, ?_, ?_⟩
    · intro hl
      simp [locationLine, lineSuffix, hf, hne, hl]
    · intro n hl hn
      simp [locationLine, lineSuffix, hf, hne, hl, hn]
    · intro hl
      simp [locationLine, lineSuffix, hf, hne, hl]

/-- Witness for the amended C9 at file "a.py", line 12. -/
theorem location_line_rendering_w :
    locationLine commentFileLine = some ("a.py" ++ (" : Line " ++ toString (12 : Int))) :=
  (((location_line_rendering commentFileLine).2 "a.py" rfl (by decide)).2.1)
    12 rfl (by decide)

/-- Claim C10: a comment whose file field is null renders no location
line at all, whatever its line field holds - the line value is only
consulted inside the branch guarded by a truthy file. -/
theorem location_no_file (agent msg severity : String) (sug : Option String)
    (n : Option Int) :
    locationLine { agent := agent, line := n, file := none, message := msg,
                   severity := severity, suggestion := sug } = none := rfl
